import Mathlib

/-!
# Verification of the velib-predictor ingestion pipeline

Shallow embedding of the core ingestion-and-persistence pipeline of the
`velib-predictor` repository:

* `src/data/collector.py` — `VelibAPIClient` (station information / status
  parsing) and `VelibDataCollector` (station orchestrators);
* `src/data/weather_collector.py` — `OpenMeteoClient` (current / historical
  weather parsing) and `WeatherCollector` (weather orchestrators);
* `src/data/database.py` — `DatabaseManager` (connection pool scope,
  `execute`, `execute_many`).

Conventions of the embedding:

* JSON numbers are modelled as `ℚ` (the pipeline never performs arithmetic on
  payload numbers, it only moves them, so the exact numeric domain is
  irrelevant; rationals keep decimal literals such as `10.0` exact).
* `datetime` values are modelled by their ISO-8601 strings (for API payloads)
  or by abstract `Nat` ticks (for the shared collection timestamp); the
  pipeline never computes with them, it only copies and compares them.
* Python exceptions are modelled by `Except` with an explicit error type
  (`PyError`): `d[k]` on a missing key is `keyError`, subscripting a
  non-dict is `typeError`, `.replace` on a non-string is `attributeError`,
  pydantic model validation failure is `validationError`, and every error
  raised by the `requests` layer (network failure, timeout,
  `raise_for_status` on a non-2xx response) is `requestException`.
* Database tables are modelled as lists of typed rows; a SQL statement is a
  function from table state and one parameter record to the new table state
  together with the psycopg `rowcount` for that record.
-/

namespace VelibPredictor

/-! ## JSON values

A JSON value as seen by `response.json()`.  Numbers are `ℚ` (see header). -/

inductive Json where
  | null : Json
  | num : ℚ → Json
  | str : String → Json
  | bool : Bool → Json
  | arr : List Json → Json
  | obj : List (String × Json) → Json
deriving BEq

/-- Python exception classes that the two clients can raise (see header). -/
inductive PyError where
  | requestException
  | keyError
  | typeError
  | attributeError
  | validationError
deriving DecidableEq

/-- `d[k]`: subscripting a JSON value with a string key.  On a dict it raises
`KeyError` when the key is absent; on any non-dict value it raises
`TypeError`. -/
def Json.getKey : Json → String → Except PyError Json
  | .obj fields, k =>
    match List.lookup k fields with
    | some v => .ok v
    | none => .error .keyError
  | _, _ => .error .typeError

/-- `d.get(k)`: dict lookup with `None` default.  Only reached in the source
after a successful `d[k']` on the same dict, so the receiver is a dict. -/
def Json.getOpt : Json → String → Option Json
  | .obj fields, k => List.lookup k fields
  | _, _ => none

/-- `for x in v`: iterating a JSON value.  A list yields its elements, a dict
yields its keys, a string yields its one-character substrings; the remaining
shapes raise `TypeError`. -/
def Json.iterate : Json → Except PyError (List Json)
  | .arr xs => .ok xs
  | .obj fields => .ok (fields.map (fun f => Json.str f.1))
  | .str s => .ok (s.data.map (fun c => Json.str (String.mk [c])))
  | _ => .error .typeError

/-! ## Station information client (`collector.py`, `VelibAPIClient`)

The `StationInfo` dataclass performs no runtime validation, so its fields
hold the raw JSON values taken from the payload. -/

structure StationInfo where
  station_id : Json
  station_code : Json
  name : Json
  lat : Json
  lon : Json
  capacity : Json
deriving BEq

/-- One iteration of the loop body of `fetch_station_information`: builds a
`StationInfo` from one entry of `data['data']['stations']`.  Each field
access is a plain `station[...]` subscript. -/
def parse_station_info_entry (station : Json) : Except PyError StationInfo := do
  let sid ← station.getKey "station_id"
  let code ← station.getKey "stationCode"
  let nm ← station.getKey "name"
  let lat ← station.getKey "lat"
  let lon ← station.getKey "lon"
  let cap ← station.getKey "capacity"
  pure ⟨sid, code, nm, lat, lon, cap⟩

/-- The parsing part of `fetch_station_information` applied to
`response.json()`. -/
def parse_station_information (data : Json) : Except PyError (List StationInfo) := do
  let d ← data.getKey "data"
  let stations ← d.getKey "stations"
  let stationList ← stations.iterate
  stationList.mapM parse_station_info_entry

/-- `VelibAPIClient.fetch_station_information`.  The argument is the outcome
of the HTTP round-trip: `.error ()` stands for any `requests.RequestException`
(network failure, timeout, or `raise_for_status` on a non-2xx response).  The
`except requests.RequestException` clause logs and re-raises, so transport
errors propagate unchanged; `KeyError` / `TypeError` raised while parsing is
not caught by that clause and also propagates. -/
def fetch_station_information (resp : Except Unit Json) :
    Except PyError (List StationInfo) :=
  match resp with
  | .error _ => .error .requestException
  | .ok data => parse_station_information data

/-! ## Station status client (`collector.py`, `VelibAPIClient`)

The claims about `fetch_station_status` concern the mechanical/e-bike scan
over `station['num_bikes_available_types']`, a list of small dicts.  The
upstream schema carries integer counts and the loop only moves the values
(never computes with them), so the dict values are modelled as `Int`. -/

/-- One element of the `num_bikes_available_types` sub-list: a Python dict,
modelled as an association list (dict keys are unique; `List.lookup` is dict
access, `(List.lookup k e).isSome` is `k in e`). -/
abbrev BikeTypeEntry := List (String × Int)

/-- The scan of `num_bikes_available_types` in `fetch_station_status`
(lines 126-134): starting from `num_mechanical = 0` and `num_ebike = 0`, for
each element, `if 'mechanical' in bike_type:` assign the mechanical count,
`elif 'ebike' in bike_type:` assign the e-bike count.  Returns the pair
`(num_mechanical, num_ebike)`. -/
def extract_bike_counts (bike_types : List BikeTypeEntry) : Int × Int :=
  bike_types.foldl
    (fun counts bike_type =>
      match List.lookup "mechanical" bike_type with
      | some v => (v, counts.2)
      | none =>
        match List.lookup "ebike" bike_type with
        | some v => (counts.1, v)
        | none => counts)
    (0, 0)

/-- `station.get('num_bikes_available_types', [])`: the sub-list may be
absent from the payload, in which case the scan runs over `[]`. -/
def bike_types_or_default (sub_list : Option (List BikeTypeEntry)) :
    List BikeTypeEntry :=
  sub_list.getD []

/-! Spec-side characterisation of the scan, used to state the last-wins
claim: the mechanical count is the value carried by the *last* element that
has a `"mechanical"` key (`0` if there is none), and the e-bike count is the
value carried by the last element that has an `"ebike"` key but no
`"mechanical"` key (`0` if there is none; an element carrying both keys is
consumed by the `if`-branch, so it never sets the e-bike count). -/

/-- Spec-side: value of the last `"mechanical"`-carrying element, default 0. -/
def lastMechanicalValue (bike_types : List BikeTypeEntry) : Int :=
  match bike_types.reverse.find? (fun e => (List.lookup "mechanical" e).isSome) with
  | some e => (List.lookup "mechanical" e).getD 0
  | none => 0

/-- Spec-side: value of the last element carrying `"ebike"` but not
`"mechanical"`, default 0. -/
def lastEbikeValue (bike_types : List BikeTypeEntry) : Int :=
  match bike_types.reverse.find?
      (fun e => (List.lookup "mechanical" e).isNone && (List.lookup "ebike" e).isSome) with
  | some e => (List.lookup "ebike" e).getD 0
  | none => 0

/-- `s.replace("Z", "+00:00")`: Python's `str.replace` specialised to the
one-character pattern `"Z"` — every occurrence of `Z` becomes `+00:00`.
(Defined by structural recursion over the characters so that it evaluates
inside the kernel; for a single-character pattern this is exactly
`str.replace`.) -/
def pyReplaceZ (s : String) : String :=
  String.mk (go s.data)
where
  go : List Char → List Char
    | [] => []
    | c :: rest =>
      if c = 'Z' then '+' :: '0' :: '0' :: ':' :: '0' :: '0' :: go rest
      else c :: go rest

/-! ## Weather client (`weather_collector.py`, `OpenMeteoClient`)

`WeatherData` is a pydantic model, which *does* validate its fields, so here
the fields are typed: `time` is the ISO string (after `Z` normalisation),
required floats are `ℚ`, optional fields are `Option ℚ`.  (pydantic's
numeric-string coercion is not modelled; no claim depends on it.) -/

structure WeatherData where
  time : String
  temperature : ℚ
  apparent_temperature : Option ℚ := none
  precipitation : ℚ
  rain : ℚ
  snowfall : ℚ
  wind_speed : Option ℚ := none
  wind_direction : Option ℚ := none
  wind_gusts : Option ℚ := none
  pressure : Option ℚ := none
  humidity : Option ℚ := none
  cloud_cover : Option ℚ := none
  weather_code : Option ℚ := none
deriving DecidableEq

/-- pydantic validation of a required `float` field. -/
def jsonAsNum : Json → Except PyError ℚ
  | .num q => .ok q
  | _ => .error .validationError

/-- pydantic validation of an `Optional[float]` field fed from `d.get(k)`:
an absent key or a JSON `null` becomes `None`, a number is kept. -/
def jsonAsOptNum : Option Json → Except PyError (Option ℚ)
  | none => .ok none
  | some .null => .ok none
  | some (.num q) => .ok (some q)
  | some _ => .error .validationError

/-- `s.replace("Z", "+00:00")` requires a `str` receiver; anything else
raises `AttributeError`. -/
def jsonAsStrForReplace : Json → Except PyError String
  | .str s => .ok s
  | _ => .error .attributeError

/-- The parsing part of `fetch_current_weather` applied to
`response.json()`: `current = data["current"]`, then
`datetime.fromisoformat(current["time"].replace("Z", "+00:00"))`, then the
`WeatherData(...)` construction whose required fields come from
`current[...]` and whose optional fields come from `current.get(...)`, with
`precipitation`, `rain` and `snowfall` defaulting to `0` when absent. -/
def parse_current_weather (data : Json) : Except PyError WeatherData := do
  let current ← data.getKey "current"
  let timeJ ← current.getKey "time"
  let timeStr ← jsonAsStrForReplace timeJ
  let tempJ ← current.getKey "temperature_2m"
  let temperature ← jsonAsNum tempJ
  let apparent_temperature ← jsonAsOptNum (current.getOpt "apparent_temperature")
  let precipitation ← jsonAsNum ((current.getOpt "precipitation").getD (Json.num 0))
  let rain ← jsonAsNum ((current.getOpt "rain").getD (Json.num 0))
  let snowfall ← jsonAsNum ((current.getOpt "snowfall").getD (Json.num 0))
  let wind_speed ← jsonAsOptNum (current.getOpt "wind_speed_10m")
  let wind_direction ← jsonAsOptNum (current.getOpt "wind_direction_10m")
  let wind_gusts ← jsonAsOptNum (current.getOpt "wind_gusts_10m")
  let pressure ← jsonAsOptNum (current.getOpt "pressure_msl")
  let humidity ← jsonAsOptNum (current.getOpt "relative_humidity_2m")
  let cloud_cover ← jsonAsOptNum (current.getOpt "cloud_cover")
  let weather_code ← jsonAsOptNum (current.getOpt "weather_code")
  pure { time := pyReplaceZ timeStr, temperature, apparent_temperature,
         precipitation, rain, snowfall, wind_speed, wind_direction, wind_gusts,
         pressure, humidity, cloud_cover, weather_code }

/-- `OpenMeteoClient.fetch_current_weather`, with the HTTP round-trip outcome
as argument, exactly as in `fetch_station_information`: the `except` clause
catches only `requests.RequestException` and re-raises it. -/
def fetch_current_weather (resp : Except Unit Json) : Except PyError WeatherData :=
  match resp with
  | .error _ => .error .requestException
  | .ok data => parse_current_weather data

/-! ### Historical weather (`fetch_historical_weather`)

The `"hourly"` block of the archive endpoint is a set of parallel arrays: a
`"time"` array of ISO strings plus one array per measurement, each holding
numbers or nulls.  An array element is `Option ℚ` (`none` is JSON `null`);
`l[i]` out of range is Python's `IndexError`, modelled by `List.get?`. -/

/-- An element of a measurement array: a number or `null`. -/
abbrev HourlyVal := Option ℚ

/-- The `"hourly"` block: the `"time"` array (absent key modelled by `none`)
and the measurement arrays that are present in the payload. -/
structure HourlyPayload where
  timeArr : Option (List String)
  arrays : List (String × List HourlyVal)

/-- `hourly.get(name, default)`: the measurement array for `name`, or the
given default list when the key is absent. -/
def HourlyPayload.hget (p : HourlyPayload) (name : String)
    (dflt : List HourlyVal) : List HourlyVal :=
  (List.lookup name p.arrays).getD dflt

/-- `x or 0` applied to a measurement value: `None` and `0` are falsy and
give `0`; any other number is kept. -/
def pyOrZero : HourlyVal → ℚ
  | none => 0
  | some x => if x = 0 then 0 else x

/-- One iteration of the loop of `fetch_historical_weather` (lines 175-193):
the `WeatherData` built from index `i` of every array.  `none` is any raised
exception: `IndexError` from `[i]` on a too-short (possibly defaulted) array,
`KeyError` from the required `hourly["temperature_2m"]`, or pydantic
rejecting a `null` for the required `temperature` field.  Note the defaults
for *absent* arrays are the one-element lists `[None]` and `[0]`, exactly as
in the source. -/
def build_historical_record (p : HourlyPayload) (ts : List String) (i : Nat) :
    Option WeatherData :=
  Option.bind (ts.get? i) fun tstr =>
  Option.bind (List.lookup "temperature_2m" p.arrays) fun tempArr =>
  Option.bind (tempArr.get? i) fun tempJ =>
  Option.bind tempJ fun temperature =>
  Option.bind ((p.hget "apparent_temperature" [none]).get? i) fun apparent_temperature =>
  Option.bind ((p.hget "precipitation" [some 0]).get? i) fun precipitation =>
  Option.bind ((p.hget "rain" [some 0]).get? i) fun rain =>
  Option.bind ((p.hget "snowfall" [some 0]).get? i) fun snowfall =>
  Option.bind ((p.hget "wind_speed_10m" [none]).get? i) fun wind_speed =>
  Option.bind ((p.hget "wind_direction_10m" [none]).get? i) fun wind_direction =>
  Option.bind ((p.hget "wind_gusts_10m" [none]).get? i) fun wind_gusts =>
  Option.bind ((p.hget "pressure_msl" [none]).get? i) fun pressure =>
  Option.bind ((p.hget "relative_humidity_2m" [none]).get? i) fun humidity =>
  Option.bind ((p.hget "cloud_cover" [none]).get? i) fun cloud_cover =>
  Option.bind ((p.hget "weather_code" [none]).get? i) fun weather_code =>
  some { time := pyReplaceZ tstr, temperature, apparent_temperature,
         precipitation := pyOrZero precipitation, rain := pyOrZero rain,
         snowfall := pyOrZero snowfall, wind_speed, wind_direction, wind_gusts,
         pressure, humidity, cloud_cover, weather_code }

/-- The parsing part of `OpenMeteoClient.fetch_historical_weather`: for `i`
in `range(len(hourly["time"]))`, build record `i` and append it.  `none` is
any exception escaping the loop (the surrounding `except` clause catches only
`requests.RequestException`). -/
def fetch_historical_weather (p : HourlyPayload) : Option (List WeatherData) := do
  let ts ← p.timeArr
  (List.range ts.length).mapM (build_historical_record p ts)

/-! ## Database access layer (`database.py`, `DatabaseManager`)

### Connection pool scope (`get_connection`, lines 79-103)

The pool is the multiset of free connections (identified by `Nat` tags).
`pool.getconn()` hands out a free connection or fails when none is available
(the bounded wait elapsing); `pool.putconn(conn)` returns it.  The body of
the `with` scope is an arbitrary function of the connection that either
returns normally or raises: `psycopg.Error` (caught by the `except` clause,
which rolls back and re-raises) or any other exception (not caught). -/

structure PoolState where
  free : List Nat
deriving DecidableEq

/-- `pool.getconn()`. -/
def PoolState.getconn (p : PoolState) : Option (Nat × PoolState) :=
  match p.free with
  | [] => none
  | c :: rest => some (c, ⟨rest⟩)

/-- `pool.putconn(conn)`. -/
def PoolState.putconn (p : PoolState) (c : Nat) : PoolState :=
  ⟨p.free ++ [c]⟩

/-- How one use of the `get_connection` scope can end. -/
inductive ScopeOutcome where
  | ok
  | dbError
  | otherError
  | poolTimeout
deriving DecidableEq

/-- What the body of the `with db.get_connection() as conn:` block does:
returns normally, raises `psycopg.Error`, or raises some other exception. -/
inductive BodyOutcome where
  | ok
  | dbError
  | otherError
deriving DecidableEq

/-- `DatabaseManager.get_connection`: `conn = None`; `try:` acquire and run
the body at the `yield`; `except psycopg.Error:` roll back (no pool effect)
and re-raise; `finally:` `if conn: self.pool.putconn(conn)`.  When
`getconn` itself fails, `conn` is still `None`, so the `finally` clause
skips `putconn`. -/
def get_connection (p : PoolState) (body : Nat → BodyOutcome) :
    PoolState × ScopeOutcome :=
  match p.getconn with
  | none => (p, .poolTimeout)
  | some (c, p1) =>
    let res := body c
    let outcome := match res with
      | .ok => ScopeOutcome.ok
      | .dbError => ScopeOutcome.dbError
      | .otherError => ScopeOutcome.otherError
    (p1.putconn c, outcome)

/-! ### `execute_many` (lines 155-192)

A SQL statement with its conflict policy is abstracted as
`stmt : σ → α → σ × Int`: from a table state and one parameter record it
yields the new table state and psycopg's `cursor.rowcount` for that record.
`execute_many` short-circuits on an empty record list, then loops
`for i in range(0, len(params_list), page_size)` over the slices
`params_list[i : i + page_size]`, executing the statement once per record
and accumulating `total_rows += cursor.rowcount`.  (`commit` and mid-batch
failure are not modelled; every claim is about the success path.)  A
`page_size` of `0` would raise `ValueError` in `range`; it is modelled as an
empty loop and every claim about `execute_many` assumes `0 < page_size`. -/

/-- One `cursor.execute(query, params)` plus `total_rows += cursor.rowcount`. -/
def runStmt {σ α : Type} (stmt : σ → α → σ × Int) (acc : σ × Int) (params : α) :
    σ × Int :=
  let res := stmt acc.1 params
  (res.1, acc.2 + res.2)

/-- `DatabaseManager.execute_many`.  `List.range' 0 m page_size` is Python's
`range(0, len(params_list), page_size)` (`m` is the number of loop
iterations, `⌈len/page_size⌉`), and `(params_list.drop i).take page_size` is
the slice `params_list[i : i + page_size]`. -/
def execute_many {σ α : Type} (stmt : σ → α → σ × Int) (st : σ)
    (params_list : List α) (page_size : Nat) : σ × Int :=
  if params_list.isEmpty then (st, 0)
  else
    (List.range' 0 ((params_list.length + page_size - 1) / page_size) page_size).foldl
      (fun acc i => ((params_list.drop i).take page_size).foldl (runStmt stmt) acc)
      (st, 0)

/-- Spec-side reference for the refinement claim: execute the statement once
per record, sequentially, with no chunking. -/
def execute_each {σ α : Type} (stmt : σ → α → σ × Int) (st : σ)
    (params_list : List α) : σ × Int :=
  params_list.foldl (runStmt stmt) (st, 0)

/-- Spec-side: the per-record `rowcount`s produced by sequential execution,
in order. -/
def rowsAffectedSeq {σ α : Type} (stmt : σ → α → σ × Int) :
    σ → List α → List Int
  | _, [] => []
  | st, p :: ps => (stmt st p).2 :: rowsAffectedSeq stmt (stmt st p).1 ps

/-! ## Persisted tables and their statements

Tables are lists of rows; each statement embeds the conflict policy of the
SQL text it stands for.  In the real database the primary key makes the key
unique; theorems that need that invariant take it as a hypothesis. -/

/-- The parsed `StationStatus` dataclass (`collector.py` lines 31-42), as it
matters to the orchestrator claims: typed per the upstream schema. -/
structure StationStatus where
  station_id : Int
  num_bikes_available : Int
  num_mechanical : Int
  num_ebike : Int
  num_docks_available : Int
  is_installed : Bool
  is_returning : Bool
  is_renting : Bool
  last_reported : Int
deriving DecidableEq

/-- A row of `station_status` (primary key `(time, station_id)`); `time` is
the collection timestamp, an abstract tick. -/
structure StatusRow where
  time : Nat
  station_id : Int
  num_bikes_available : Int
  num_mechanical : Int
  num_ebike : Int
  num_docks_available : Int
  is_installed : Bool
  is_returning : Bool
  is_renting : Bool
  last_reported : Int
deriving DecidableEq

/-- Does the table already hold a row with this row's `(time, station_id)`
key? -/
def hasStatusKey (tbl : List StatusRow) (r : StatusRow) : Bool :=
  tbl.any (fun x => x.time == r.time && x.station_id == r.station_id)

/-- The `INSERT INTO station_status ... ON CONFLICT (time, station_id)
DO NOTHING` statement applied to one record: a key collision leaves the
table untouched with `rowcount = 0`, otherwise the row is added with
`rowcount = 1`. -/
def station_status_insert (tbl : List StatusRow) (r : StatusRow) :
    List StatusRow × Int :=
  if hasStatusKey tbl r then (tbl, 0) else (tbl ++ [r], 1)

/-- The record dict built for one status inside `collect_station_status`
(lines 253-267): the shared `collection_time` plus the fields of the parsed
status. -/
def status_record (collection_time : Nat) (s : StationStatus) : StatusRow :=
  { time := collection_time
    station_id := s.station_id
    num_bikes_available := s.num_bikes_available
    num_mechanical := s.num_mechanical
    num_ebike := s.num_ebike
    num_docks_available := s.num_docks_available
    is_installed := s.is_installed
    is_returning := s.is_returning
    is_renting := s.is_renting
    last_reported := s.last_reported }

/-- The whole record batch of one `collect_station_status` invocation. -/
def status_records (collection_time : Nat) (statuses : List StationStatus) :
    List StatusRow :=
  statuses.map (status_record collection_time)

/-- `VelibDataCollector.collect_station_status` (lines 222-277), from the
point where the fetched statuses are in hand: take one collection timestamp,
build the batch, and run the conflict-ignore insert through
`execute_many` (default `page_size=1000`); the returned `Int` is
`rows_inserted`.  The subsequent `REFRESH MATERIALIZED VIEW CONCURRENTLY
latest_station_status` only rebuilds a derived view and does not touch the
`station_status` table, so it does not appear in the table state. -/
def collect_station_status (tbl : List StatusRow)
    (statuses : List StationStatus) (collection_time : Nat) :
    List StatusRow × Int :=
  execute_many station_status_insert tbl
    (status_records collection_time statuses) 1000

/-- A row of `weather_data` (primary key `time`) is exactly the
`model_dump()` of a `WeatherData`, i.e. the `WeatherData` itself. -/
def weather_row_time (w : WeatherData) : String := w.time

/-- The `INSERT INTO weather_data ... ON CONFLICT (time) DO UPDATE SET
<every non-key field> = EXCLUDED.<field>` statement applied to one record:
on a key collision every listed field of the existing row is overwritten
with the incoming record's value — since the key is equal too, the stored
row becomes the incoming record; otherwise the row is added.  Either way
psycopg reports `rowcount = 1`. -/
def weather_upsert (tbl : List WeatherData) (w : WeatherData) :
    List WeatherData × Int :=
  if tbl.any (fun r => r.time == w.time) then
    (tbl.map (fun r => if r.time == w.time then w else r), 1)
  else (tbl ++ [w], 1)

/-- `WeatherCollector.collect_current_weather` (lines 217-262), from the
point where the fetched snapshot is in hand: one `db.execute` of the upsert
statement with the snapshot's `model_dump()`; returns psycopg's rowcount. -/
def collect_current_weather (tbl : List WeatherData) (weather : WeatherData) :
    List WeatherData × Int :=
  weather_upsert tbl weather

/-- The `INSERT INTO station_information ... ON CONFLICT (station_id)
DO UPDATE SET <every mutable field> = EXCLUDED.<field>` statement applied to
one record dict (which carries exactly the `StationInfo` fields; the
`updated_at = CURRENT_TIMESTAMP` column is not modelled, no claim touches
it).  `rowcount = 1` whether the row was inserted or overwritten. -/
def station_information_upsert (tbl : List StationInfo) (s : StationInfo) :
    List StationInfo × Int :=
  if tbl.any (fun x => x.station_id == s.station_id) then
    (tbl.map (fun x => if x.station_id == s.station_id then s else x), 1)
  else (tbl ++ [s], 1)

/-- `VelibDataCollector.update_station_information` (lines 170-216), from the
point where the fetched stations are in hand: run the per-record upsert
through `execute_many` (its rows-affected return value is discarded by the
source) and `return len(stations)`. -/
def update_station_information (tbl : List StationInfo)
    (stations : List StationInfo) : List StationInfo × Nat :=
  let upserted := (execute_many station_information_upsert tbl stations 1000).1
  (upserted, stations.length)

/-! ## Helper lemmas: `execute_many` refines sequential execution -/

/-- The chunked `range(0, len, page_size)` loop of `execute_many` visits
exactly the records of `l.drop s`, in order, when `m` is the remaining
iteration count `⌈(l.drop s).length / k⌉`. -/
theorem range'_slices_foldl {σ α : Type} (stmt : σ → α → σ × Int) (k : Nat)
    (hk : 0 < k) (l : List α) :
    ∀ (m s : Nat) (acc : σ × Int), ((l.drop s).length + k - 1) / k = m →
      (List.range' s m k).foldl
          (fun acc i => ((l.drop i).take k).foldl (runStmt stmt) acc) acc
        = (l.drop s).foldl (runStmt stmt) acc := by
  intro m
  induction m with
  | zero =>
    intro s acc h
    have hlen : (l.drop s).length = 0 := by
      by_contra hn
      have h1 : 1 ≤ ((l.drop s).length + k - 1) / k :=
        (Nat.one_le_div_iff hk).mpr (by omega)
      omega
    rw [List.length_eq_zero] at hlen
    rw [hlen]
    rfl
  | succ m ih =>
    intro s acc h
    rw [List.range'_succ]
    simp only [List.foldl_cons]
    have hstep : l.drop (s + k) = (l.drop s).drop k := (List.drop_drop k s l).symm
    have harith : ((l.drop (s + k)).length + k - 1) / k = m := by
      rw [hstep, List.length_drop]
      rcases Nat.lt_or_ge (l.drop s).length k with hnk | hnk
      · have hz : (l.drop s).length - k + k - 1 = k - 1 := by omega
        rw [hz, Nat.div_eq_of_lt (by omega)]
        have hlt : ((l.drop s).length + k - 1) / k < 2 :=
          (Nat.div_lt_iff_lt_mul hk).mpr (by omega)
        omega
      · have hn1 : (l.drop s).length + k - 1 = ((l.drop s).length - 1) + k := by omega
        rw [hn1, Nat.add_div_right _ hk] at h
        have hg : (l.drop s).length - k + k - 1 = (l.drop s).length - 1 := by omega
        rw [hg]
        omega
    rw [ih (s + k) _ harith, hstep]
    conv_rhs => rw [← List.take_append_drop k (l.drop s), List.foldl_append]

/-- `execute_many` with any positive `page_size` is sequential per-record
execution. -/
theorem execute_many_eq_each {σ α : Type} (stmt : σ → α → σ × Int) (st : σ)
    (l : List α) (k : Nat) (hk : 0 < k) :
    execute_many stmt st l k = execute_each stmt st l := by
  unfold execute_many execute_each
  by_cases hl : l.isEmpty
  · rw [if_pos hl, List.isEmpty_iff] at *
    rw [hl]
    rfl
  · rw [if_neg hl]
    have := range'_slices_foldl stmt k hk l ((l.length + k - 1) / k) 0 (st, 0)
      (by simp)
    simpa using this

/-- The running `total_rows` of sequential execution is the sum of the
per-record rowcounts. -/
theorem foldl_runStmt_snd {σ α : Type} (stmt : σ → α → σ × Int) :
    ∀ (l : List α) (st : σ) (c : Int),
      (l.foldl (runStmt stmt) (st, c)).2 = c + (rowsAffectedSeq stmt st l).sum := by
  intro l
  induction l with
  | nil =>
    intro st c
    simp [rowsAffectedSeq]
  | cons p ps ih =>
    intro st c
    simp only [List.foldl_cons, rowsAffectedSeq, List.sum_cons]
    rw [show runStmt stmt (st, c) p = ((stmt st p).1, c + (stmt st p).2) from rfl]
    rw [ih]
    ring

/-- **C6**: for every statement, every record list and every positive
`page_size`, `execute_many` produces the same final database state and the
same returned total as executing the statement once per record sequentially
with no chunking; the result is independent of `page_size`, and the returned
total is the sum of the per-record rows-affected. -/
theorem C6_execute_many_refines_sequential {σ α : Type} (stmt : σ → α → σ × Int)
    (st : σ) (params_list : List α) (page_size : Nat) (hk : 0 < page_size) :
    execute_many stmt st params_list page_size = execute_each stmt st params_list
      ∧ (execute_many stmt st params_list page_size).2
          = (rowsAffectedSeq stmt st params_list).sum
      ∧ ∀ page_size2, 0 < page_size2 →
          execute_many stmt st params_list page_size2
            = execute_many stmt st params_list page_size := by
  refine ⟨execute_many_eq_each stmt st params_list page_size hk, ?_, ?_⟩
  · rw [execute_many_eq_each stmt st params_list page_size hk]
    unfold execute_each
    rw [foldl_runStmt_snd]
    ring
  · intro k2 hk2
    rw [execute_many_eq_each stmt st params_list page_size hk,
      execute_many_eq_each stmt st params_list k2 hk2]

/-- A tiny concrete statement for the C6 witness: add the record to an `Int`
accumulator state and report one row affected. -/
def stmtSumOne : Int → Int → Int × Int := fun s a => (s + a, 1)

/-- Witness for C6 at a concrete statement, record list and `page_size`. -/
theorem C6_witness :
    execute_many stmtSumOne 0 [1, 2, 3] 2 = execute_each stmtSumOne 0 [1, 2, 3]
      ∧ (execute_many stmtSumOne 0 [1, 2, 3] 2).2
          = (rowsAffectedSeq stmtSumOne 0 [1, 2, 3]).sum :=
  ⟨(C6_execute_many_refines_sequential stmtSumOne 0 [1, 2, 3] 2 (by decide)).1,
   (C6_execute_many_refines_sequential stmtSumOne 0 [1, 2, 3] 2 (by decide)).2.1⟩

/-- **C9**: `update_station_information` returns the number of stations
fetched from the API, regardless of how many rows the upsert actually
changed in the database (the rows-affected result of `execute_many` is
discarded). -/
theorem C9_update_returns_fetched_count (tbl stations : List StationInfo) :
    (update_station_information tbl stations).2 = stations.length := rfl

/-- **C5**: every record in the batch written by a single
`collect_station_status` invocation carries the one collection timestamp
taken for that invocation. -/
theorem C5_shared_collection_timestamp (statuses : List StationStatus) (t : Nat)
    (r : StatusRow) (hr : r ∈ status_records t statuses) : r.time = t := by
  unfold status_records at hr
  rcases List.mem_map.mp hr with ⟨s, _, rfl⟩
  rfl

/-- A concrete parsed status for witnesses. -/
def statusEx : StationStatus :=
  ⟨17, 3, 2, 1, 20, true, true, false, 1700000000⟩

/-- Witness for C5 at a concrete batch. -/
theorem C5_witness :
    status_record 42 statusEx ∈ status_records 42 [statusEx]
      ∧ (status_record 42 statusEx).time = 42 :=
  ⟨by simp [status_records],
   C5_shared_collection_timestamp [statusEx] 42 (status_record 42 statusEx)
     (by simp [status_records])⟩

/-- **C7**: a connection acquired from the pool is released back on every
exit path of the `get_connection` scope — normal completion, `psycopg.Error`
or any other exception in the body — so the pool holds the same connections
after the scope as before it (and whenever `getconn` handed out `c`, the
final pool is exactly `putconn` of `c`). -/
theorem C7_pool_never_leaks (p : PoolState) (body : Nat → BodyOutcome) :
    ((get_connection p body).1.free).Perm p.free
      ∧ ∀ c p1, p.getconn = some (c, p1) →
          (get_connection p body).1 = p1.putconn c := by
  obtain ⟨free⟩ := p
  cases free with
  | nil =>
    refine ⟨List.Perm.refl _, ?_⟩
    intro c p1 h
    simp [PoolState.getconn] at h
  | cons c rest =>
    constructor
    · show (rest ++ [c]).Perm (c :: rest)
      exact (List.perm_cons_append_cons c (by simp : rest.Perm (rest ++ []))).symm
    · intro c' p1 h
      simp only [PoolState.getconn] at h
      obtain ⟨rfl, rfl⟩ := Prod.mk.injEq .. ▸ (Option.some.injEq .. ▸ h)
      rfl

/-- Witness for C7 at a concrete pool and a body that raises
`psycopg.Error`. -/
theorem C7_witness :
    ((get_connection ⟨[7, 8]⟩ (fun _ => BodyOutcome.dbError)).1.free).Perm [7, 8]
      ∧ (get_connection ⟨[7, 8]⟩ (fun _ => BodyOutcome.dbError)).1
          = PoolState.putconn ⟨[8]⟩ 7 :=
  ⟨(C7_pool_never_leaks ⟨[7, 8]⟩ (fun _ => BodyOutcome.dbError)).1,
   (C7_pool_never_leaks ⟨[7, 8]⟩ (fun _ => BodyOutcome.dbError)).2 7 ⟨[8]⟩ rfl⟩

/-! ## C2: the bike-type scan -/

/-- The loop of `fetch_station_status` computes exactly the last-wins
counts. -/
theorem extract_bike_counts_last_wins (bike_types : List BikeTypeEntry) :
    extract_bike_counts bike_types
      = (lastMechanicalValue bike_types, lastEbikeValue bike_types) := by
  induction bike_types using List.reverseRecOn with
  | nil => rfl
  | append_singleton l e ih =>
    unfold extract_bike_counts at ih ⊢
    rw [List.foldl_append, ih]
    unfold lastMechanicalValue lastEbikeValue
    rw [List.reverse_append]
    simp only [List.reverse_singleton, List.singleton_append, List.foldl_cons,
      List.foldl_nil]
    cases hm : List.lookup "mechanical" e with
    | some v =>
      rw [List.find?_cons_of_pos _ (by simp [hm]),
        List.find?_cons_of_neg _ (by simp [hm])]
      simp [hm]
    | none =>
      cases he : List.lookup "ebike" e with
      | some w =>
        rw [List.find?_cons_of_neg _ (by simp [hm]),
          List.find?_cons_of_pos _ (by simp [hm, he])]
        simp [hm, he]
      | none =>
        rw [List.find?_cons_of_neg _ (by simp [hm]),
          List.find?_cons_of_neg _ (by simp [hm, he])]

/-- **C2**: the mechanical/e-bike split scans the bike-type sub-list in
order: an element with a `"mechanical"` key sets the mechanical count, else
one with an `"ebike"` key sets the e-bike count; with several elements of
the same kind the last one scanned wins (no summing), and an absent or empty
sub-list leaves both counts 0 (including the spec's three examples). -/
theorem C2_bike_type_scan_last_wins :
    (∀ bike_types : List BikeTypeEntry,
        extract_bike_counts bike_types
          = (lastMechanicalValue bike_types, lastEbikeValue bike_types))
      ∧ extract_bike_counts (bike_types_or_default none) = (0, 0)
      ∧ extract_bike_counts (bike_types_or_default (some [])) = (0, 0)
      ∧ extract_bike_counts [[("mechanical", 3)], [("ebike", 2)]] = (3, 2)
      ∧ extract_bike_counts [[("mechanical", 1)], [("mechanical", 4)]] = (4, 0) :=
  ⟨extract_bike_counts_last_wins, rfl, rfl, by decide, by decide⟩

/-! ## C1: historical parse with an absent optional array -/

/-- The C1 failing payload: two time entries, the required
`temperature_2m` array present, every optional measurement array absent. -/
def historicalPayloadNoOptionals : HourlyPayload :=
  ⟨some ["t0", "t1"], [("temperature_2m", [some 5, some 6])]⟩

/-- **C1** (counter-evaluation for the code bug): on a payload whose time
array has two entries and whose optional measurement arrays are absent,
`fetch_historical_weather` raises `IndexError` (the absent-array default is
the one-element list `[None]` / `[0]`, so record 1's subscript is out of
range) and produces no records, instead of building record 1 with the
defaulted fields; record 0 alone would have parsed. -/
theorem C1_absent_optional_array_crashes :
    fetch_historical_weather historicalPayloadNoOptionals = none
      ∧ build_historical_record historicalPayloadNoOptionals ["t0", "t1"] 1 = none
      ∧ (build_historical_record historicalPayloadNoOptionals ["t0", "t1"] 0).isSome
          = true :=
  ⟨rfl, rfl, rfl⟩

/-! ## C3: status insert idempotence -/

/-- Inserting never removes a key already present. -/
theorem hasStatusKey_insert_mono (tbl : List StatusRow) (s r : StatusRow)
    (h : hasStatusKey tbl r = true) :
    hasStatusKey (station_status_insert tbl s).1 r = true := by
  unfold station_status_insert
  by_cases hs : hasStatusKey tbl s
  · simpa [hs]
  · simp only [hs, Bool.false_eq_true, if_false]
    unfold hasStatusKey at h ⊢
    rw [List.any_append, h, Bool.true_or]

/-- After inserting a record its key is present. -/
theorem hasStatusKey_insert_self (tbl : List StatusRow) (r : StatusRow) :
    hasStatusKey (station_status_insert tbl r).1 r = true := by
  unfold station_status_insert
  by_cases hs : hasStatusKey tbl r
  · simp [hs]
  · simp only [hs, Bool.false_eq_true, if_false]
    unfold hasStatusKey
    rw [List.any_append]
    simp

/-- Folding the insert statement over a batch preserves present keys. -/
theorem foldl_insert_key_mono (rs : List StatusRow) :
    ∀ (tbl : List StatusRow) (c : Int) (r : StatusRow), hasStatusKey tbl r = true →
      hasStatusKey ((rs.foldl (runStmt station_status_insert) (tbl, c)).1) r = true := by
  induction rs with
  | nil =>
    intro tbl c r h
    simpa
  | cons s ss ih =>
    intro tbl c r h
    simp only [List.foldl_cons]
    rw [show runStmt station_status_insert (tbl, c) s
      = ((station_status_insert tbl s).1, c + (station_status_insert tbl s).2) from rfl]
    exact ih _ _ r (hasStatusKey_insert_mono tbl s r h)

/-- After folding the insert statement over a batch, every key of the batch
is present in the table. -/
theorem foldl_insert_keys_present (rs : List StatusRow) :
    ∀ (tbl : List StatusRow) (c : Int) (r : StatusRow), r ∈ rs →
      hasStatusKey ((rs.foldl (runStmt station_status_insert) (tbl, c)).1) r = true := by
  induction rs with
  | nil =>
    intro tbl c r h
    cases h
  | cons s ss ih =>
    intro tbl c r h
    simp only [List.foldl_cons]
    rw [show runStmt station_status_insert (tbl, c) s
      = ((station_status_insert tbl s).1, c + (station_status_insert tbl s).2) from rfl]
    rcases List.mem_cons.mp h with rfl | hmem
    · exact foldl_insert_key_mono ss _ _ r (hasStatusKey_insert_self tbl r)
    · exact ih _ _ r hmem

/-- Folding the insert statement over a batch whose keys are all already
present changes nothing and inserts 0 rows. -/
theorem foldl_insert_noop (rs : List StatusRow) :
    ∀ (tbl : List StatusRow) (c : Int), (∀ r ∈ rs, hasStatusKey tbl r = true) →
      rs.foldl (runStmt station_status_insert) (tbl, c) = (tbl, c) := by
  induction rs with
  | nil =>
    intro tbl c _
    rfl
  | cons s ss ih =>
    intro tbl c h
    simp only [List.foldl_cons]
    have hs := h s (by simp)
    rw [show runStmt station_status_insert (tbl, c) s
      = ((station_status_insert tbl s).1, c + (station_status_insert tbl s).2) from rfl]
    unfold station_status_insert
    rw [if_pos hs]
    simp only [add_zero]
    exact ih tbl c (fun r hr => h r (by simp [hr]))

/-- **C3**: for every fetched payload and any prior `station_status` state,
running `collect_station_status` twice with the same payload and the same
collection timestamp leaves the table exactly as after the first run, and
the second run returns 0 rows inserted (rows actually inserted, not rows
fetched). -/
theorem C3_collect_station_status_idempotent (tbl : List StatusRow)
    (statuses : List StationStatus) (t : Nat) :
    collect_station_status (collect_station_status tbl statuses t).1 statuses t
      = ((collect_station_status tbl statuses t).1, 0) := by
  unfold collect_station_status
  rw [execute_many_eq_each _ _ _ _ (by norm_num),
    execute_many_eq_each _ _ _ _ (by norm_num)]
  unfold execute_each
  exact foldl_insert_noop _ _ _
    (fun r hr => foldl_insert_keys_present _ _ _ r hr)

/-! ## C4: weather upsert overwrite -/

/-- Overwriting every row keyed `w.time` maps the key's fibre of the table
to copies of `w`. -/
theorem filter_map_overwrite (w : WeatherData) :
    ∀ tbl : List WeatherData,
      ((tbl.map (fun r => if r.time == w.time then w else r)).filter
          (fun r => r.time == w.time))
        = (tbl.filter (fun r => r.time == w.time)).map (fun _ => w) := by
  intro tbl
  induction tbl with
  | nil => rfl
  | cons r rest ih =>
    simp only [List.map_cons, List.filter_cons]
    by_cases hr : r.time = w.time
    · simp only [hr, beq_self_eq_true, if_true, ih, List.map_cons]
    · have hb : (r.time == w.time) = false := by simp [hr]
      simp only [hb, Bool.false_eq_true, if_false, ih]

/-- One upsert of `w` leaves exactly `[w]` in the fibre of key `w.time`,
provided the table held at most one row with that key (the primary-key
invariant). -/
theorem weather_upsert_filter (tbl : List WeatherData) (w : WeatherData)
    (hpk : (tbl.filter (fun r => r.time == w.time)).length ≤ 1) :
    ((weather_upsert tbl w).1.filter (fun r => r.time == w.time)) = [w] := by
  unfold weather_upsert
  by_cases hany : tbl.any (fun r => r.time == w.time)
  · rw [if_pos hany]
    show ((tbl.map (fun r => if r.time == w.time then w else r)).filter
        (fun r => r.time == w.time)) = [w]
    rw [filter_map_overwrite w tbl]
    have hne : tbl.filter (fun r => r.time == w.time) ≠ [] := by
      rcases List.any_eq_true.mp hany with ⟨x, hx, hpx⟩
      intro hnil
      have hmem : x ∈ tbl.filter (fun r => r.time == w.time) :=
        List.mem_filter.mpr ⟨hx, hpx⟩
      rw [hnil] at hmem
      cases hmem
    have hlen : (tbl.filter (fun r => r.time == w.time)).length = 1 := by
      have := List.length_pos.mpr hne
      omega
    rcases List.length_eq_one.mp hlen with ⟨x, hx⟩
    rw [hx]
    rfl
  · rw [if_neg hany]
    show ((tbl ++ [w]).filter (fun r => r.time == w.time)) = [w]
    rw [List.filter_append]
    have h0 : tbl.filter (fun r => r.time == w.time) = [] := by
      rw [List.filter_eq_nil_iff]
      intro a ha hpa
      exact hany (List.any_eq_true.mpr ⟨a, ha, hpa⟩)
    rw [h0]
    simp

/-- **C4**: for any prior `weather_data` state satisfying the primary-key
invariant, collecting a snapshot keyed `T` with temperature 10.0 and then a
snapshot keyed `T` with temperature 12.0 leaves exactly one row keyed `T`;
that row is the second snapshot entire (so its temperature is 12.0 and every
other field is the second snapshot's value): the upsert overwrites every
field on key conflict. -/
theorem C4_weather_upsert_overwrites (tbl : List WeatherData) (T : String)
    (w1 w2 : WeatherData) (h1 : w1.time = T) (h2 : w2.time = T)
    (ht1 : w1.temperature = 10) (ht2 : w2.temperature = 12)
    (hpk : (tbl.filter (fun r => r.time == T)).length ≤ 1) :
    ((collect_current_weather (collect_current_weather tbl w1).1 w2).1.filter
        (fun r => r.time == T)) = [w2]
      ∧ ∀ r ∈ ((collect_current_weather (collect_current_weather tbl w1).1 w2).1.filter
          (fun r => r.time == T)), r.temperature = 12 := by
  unfold collect_current_weather
  have hpred1 : (fun r : WeatherData => r.time == T) = (fun r => r.time == w1.time) := by
    funext r
    rw [h1]
  have hpred2 : (fun r : WeatherData => r.time == T) = (fun r => r.time == w2.time) := by
    funext r
    rw [h2]
  have hpp : (fun r : WeatherData => r.time == w2.time)
      = (fun r => r.time == w1.time) := hpred2.symm.trans hpred1
  have hf1 : ((weather_upsert tbl w1).1.filter (fun r => r.time == w1.time)) = [w1] :=
    weather_upsert_filter tbl w1 (by rw [← hpred1]; exact hpk)
  have hpk2 : (((weather_upsert tbl w1).1).filter
      (fun r => r.time == w2.time)).length ≤ 1 := by
    rw [hpp, hf1]
    simp
  have hf2 : ((weather_upsert (weather_upsert tbl w1).1 w2).1.filter
      (fun r => r.time == w2.time)) = [w2] :=
    weather_upsert_filter (weather_upsert tbl w1).1 w2 hpk2
  constructor
  · rw [hpred2, hf2]
  · rw [hpred2, hf2]
    intro r hr
    have : r = w2 := by simpa using hr
    rw [this]
    exact ht2

/-- First concrete snapshot for the C4 witness: keyed `T`, temperature 10.0. -/
def weatherSnapshot1 : WeatherData :=
  { time := "2024-06-01T00:00", temperature := 10, precipitation := 0,
    rain := 0, snowfall := 0 }

/-- Second concrete snapshot for the C4 witness: keyed `T`, temperature 12.0
and different values in the other fields. -/
def weatherSnapshot2 : WeatherData :=
  { time := "2024-06-01T00:00", temperature := 12, precipitation := 1,
    rain := 1, snowfall := 0, wind_speed := some 5 }

/-- Witness for C4 at an empty prior table and the two concrete snapshots. -/
theorem C4_witness :
    ((collect_current_weather (collect_current_weather [] weatherSnapshot1).1
        weatherSnapshot2).1.filter
      (fun r => r.time == "2024-06-01T00:00")) = [weatherSnapshot2] :=
  (C4_weather_upsert_overwrites [] "2024-06-01T00:00" weatherSnapshot1
    weatherSnapshot2 rfl rfl rfl rfl (by simp)).1

/-! ## C10: null entries inside present measurement arrays -/

/-- **C10**: when a measurement array is present in the historical payload
and holds a JSON `null` at index `i`, a successfully built record `i` maps
that null to `0` for `precipitation`, `rain` and `snowfall` (the `or 0`
coercion) and to `None` for every other optional measurement. -/
theorem C10_null_entries_in_present_arrays (p : HourlyPayload) (ts : List String)
    (i : Nat) (r : WeatherData)
    (hr : build_historical_record p ts i = some r) :
    (∀ a, List.lookup "precipitation" p.arrays = some a → a.get? i = some none →
        r.precipitation = 0)
      ∧ (∀ a, List.lookup "rain" p.arrays = some a → a.get? i = some none →
        r.rain = 0)
      ∧ (∀ a, List.lookup "snowfall" p.arrays = some a → a.get? i = some none →
        r.snowfall = 0)
      ∧ (∀ a, List.lookup "apparent_temperature" p.arrays = some a →
        a.get? i = some none → r.apparent_temperature = none)
      ∧ (∀ a, List.lookup "wind_speed_10m" p.arrays = some a →
        a.get? i = some none → r.wind_speed = none)
      ∧ (∀ a, List.lookup "wind_direction_10m" p.arrays = some a →
        a.get? i = some none → r.wind_direction = none)
      ∧ (∀ a, List.lookup "wind_gusts_10m" p.arrays = some a →
        a.get? i = some none → r.wind_gusts = none)
      ∧ (∀ a, List.lookup "pressure_msl" p.arrays = some a →
        a.get? i = some none → r.pressure = none)
      ∧ (∀ a, List.lookup "relative_humidity_2m" p.arrays = some a →
        a.get? i = some none → r.humidity = none)
      ∧ (∀ a, List.lookup "cloud_cover" p.arrays = some a →
        a.get? i = some none → r.cloud_cover = none)
      ∧ (∀ a, List.lookup "weather_code" p.arrays = some a →
        a.get? i = some none → r.weather_code = none) := by
  unfold build_historical_record at hr
  rw [Option.bind_eq_some] at hr
  obtain ⟨tstr, h_t, hr⟩ := hr
  rw [Option.bind_eq_some] at hr
  obtain ⟨tempArr, h_ta, hr⟩ := hr
  rw [Option.bind_eq_some] at hr
  obtain ⟨tempJ, h_tj, hr⟩ := hr
  rw [Option.bind_eq_some] at hr
  obtain ⟨temperature, h_te, hr⟩ := hr
  rw [Option.bind_eq_some] at hr
  obtain ⟨app, h_app, hr⟩ := hr
  rw [Option.bind_eq_some] at hr
  obtain ⟨prec, h_prec, hr⟩ := hr
  rw [Option.bind_eq_some] at hr
  obtain ⟨rain, h_rain, hr⟩ := hr
  rw [Option.bind_eq_some] at hr
  obtain ⟨snow, h_snow, hr⟩ := hr
  rw [Option.bind_eq_some] at hr
  obtain ⟨ws, h_ws, hr⟩ := hr
  rw [Option.bind_eq_some] at hr
  obtain ⟨wd, h_wd, hr⟩ := hr
  rw [Option.bind_eq_some] at hr
  obtain ⟨wg, h_wg, hr⟩ := hr
  rw [Option.bind_eq_some] at hr
  obtain ⟨pr, h_pr, hr⟩ := hr
  rw [Option.bind_eq_some] at hr
  obtain ⟨hu, h_hu, hr⟩ := hr
  rw [Option.bind_eq_some] at hr
  obtain ⟨cc, h_cc, hr⟩ := hr
  rw [Option.bind_eq_some] at hr
  obtain ⟨wc, h_wc, hr⟩ := hr
  obtain rfl : _ = r := Option.some.inj hr
  refine ⟨?_, ?_, ?_, ?_, ?_, ?_, ?_, ?_, ?_, ?_, ?_⟩
  · intro a ha hai
    simp only [HourlyPayload.hget, ha, Option.getD_some] at h_prec
    rw [hai] at h_prec
    obtain rfl : prec = none := (Option.some.inj h_prec).symm
    rfl
  · intro a ha hai
    simp only [HourlyPayload.hget, ha, Option.getD_some] at h_rain
    rw [hai] at h_rain
    obtain rfl : rain = none := (Option.some.inj h_rain).symm
    rfl
  · intro a ha hai
    simp only [HourlyPayload.hget, ha, Option.getD_some] at h_snow
    rw [hai] at h_snow
    obtain rfl : snow = none := (Option.some.inj h_snow).symm
    rfl
  · intro a ha hai
    simp only [HourlyPayload.hget, ha, Option.getD_some] at h_app
    rw [hai] at h_app
    obtain rfl : app = none := (Option.some.inj h_app).symm
    rfl
  · intro a ha hai
    simp only [HourlyPayload.hget, ha, Option.getD_some] at h_ws
    rw [hai] at h_ws
    obtain rfl : ws = none := (Option.some.inj h_ws).symm
    rfl
  · intro a ha hai
    simp only [HourlyPayload.hget, ha, Option.getD_some] at h_wd
    rw [hai] at h_wd
    obtain rfl : wd = none := (Option.some.inj h_wd).symm
    rfl
  · intro a ha hai
    simp only [HourlyPayload.hget, ha, Option.getD_some] at h_wg
    rw [hai] at h_wg
    obtain rfl : wg = none := (Option.some.inj h_wg).symm
    rfl
  · intro a ha hai
    simp only [HourlyPayload.hget, ha, Option.getD_some] at h_pr
    rw [hai] at h_pr
    obtain rfl : pr = none := (Option.some.inj h_pr).symm
    rfl
  · intro a ha hai
    simp only [HourlyPayload.hget, ha, Option.getD_some] at h_hu
    rw [hai] at h_hu
    obtain rfl : hu = none := (Option.some.inj h_hu).symm
    rfl
  · intro a ha hai
    simp only [HourlyPayload.hget, ha, Option.getD_some] at h_cc
    rw [hai] at h_cc
    obtain rfl : cc = none := (Option.some.inj h_cc).symm
    rfl
  · intro a ha hai
    simp only [HourlyPayload.hget, ha, Option.getD_some] at h_wc
    rw [hai] at h_wc
    obtain rfl : wc = none := (Option.some.inj h_wc).symm
    rfl

/-- C10 witness payload: one time entry, every measurement array present and
null at index 0 (except the required temperature). -/
def hourlyAllNull : HourlyPayload :=
  ⟨some ["t0"],
   [("temperature_2m", [some 7]), ("apparent_temperature", [none]),
    ("precipitation", [none]), ("rain", [none]), ("snowfall", [none]),
    ("wind_speed_10m", [none]), ("wind_direction_10m", [none]),
    ("wind_gusts_10m", [none]), ("pressure_msl", [none]),
    ("relative_humidity_2m", [none]), ("cloud_cover", [none]),
    ("weather_code", [none])]⟩

/-- The record the C10 witness payload parses to. -/
def weatherRecordAllNull : WeatherData :=
  { time := "t0", temperature := 7, apparent_temperature := none,
    precipitation := 0, rain := 0, snowfall := 0 }

/-- Witness for C10 at the all-null payload. -/
theorem C10_witness :
    build_historical_record hourlyAllNull ["t0"] 0 = some weatherRecordAllNull
      ∧ weatherRecordAllNull.precipitation = 0
      ∧ weatherRecordAllNull.wind_speed = none :=
  ⟨rfl,
   (C10_null_entries_in_present_arrays hourlyAllNull ["t0"] 0
     weatherRecordAllNull rfl).1 [none] rfl rfl,
   (C10_null_entries_in_present_arrays hourlyAllNull ["t0"] 0
     weatherRecordAllNull rfl).2.2.2.2.1 [none] rfl rfl⟩

/-! ## C8: parse errors are typed and distinct from transport errors -/

/-- **C8**: a transport failure (network error, timeout, non-2xx status)
yields `requestException` for both clients; an ok HTTP response whose JSON
lacks an expected key makes the parse — and hence the fetch — fail with
`keyError`, a typed error distinct from `requestException`, and no domain
records are returned (in particular an ok payload whose top level lacks
`"data"` / `"current"` fails that way). -/
theorem C8_missing_key_is_parse_error :
    (∀ u : Unit, fetch_station_information (.error u) = .error .requestException)
      ∧ (∀ u : Unit, fetch_current_weather (.error u) = .error .requestException)
      ∧ (∀ j, parse_station_information j = .error .keyError →
          fetch_station_information (.ok j) = .error .keyError
            ∧ ∀ l, fetch_station_information (.ok j) ≠ .ok l)
      ∧ (∀ j, parse_current_weather j = .error .keyError →
          fetch_current_weather (.ok j) = .error .keyError
            ∧ ∀ w, fetch_current_weather (.ok j) ≠ .ok w)
      ∧ (∀ fields, List.lookup "data" fields = none →
          fetch_station_information (.ok (.obj fields)) = .error .keyError)
      ∧ (∀ fields, List.lookup "current" fields = none →
          fetch_current_weather (.ok (.obj fields)) = .error .keyError)
      ∧ PyError.keyError ≠ PyError.requestException := by
  refine ⟨fun _ => rfl, fun _ => rfl, ?_, ?_, ?_, ?_, by decide⟩
  · intro j h
    refine ⟨h, ?_⟩
    intro l hl
    rw [show fetch_station_information (.ok j) = parse_station_information j
      from rfl, h] at hl
    cases hl
  · intro j h
    refine ⟨h, ?_⟩
    intro w hw
    rw [show fetch_current_weather (.ok j) = parse_current_weather j
      from rfl, h] at hw
    cases hw
  · intro fields h
    show parse_station_information (.obj fields) = .error .keyError
    unfold parse_station_information
    rw [show (Json.obj fields).getKey "data" = .error .keyError from by
      simp [Json.getKey, h]]
    rfl
  · intro fields h
    show parse_current_weather (.obj fields) = .error .keyError
    unfold parse_current_weather
    rw [show (Json.obj fields).getKey "current" = .error .keyError from by
      simp [Json.getKey, h]]
    rfl

/-- Witness for C8 at a concrete ok payload missing the top-level key. -/
theorem C8_witness :
    fetch_station_information (.ok (Json.obj [])) = .error .keyError
      ∧ fetch_current_weather (.ok (Json.obj [])) = .error .keyError :=
  ⟨C8_missing_key_is_parse_error.2.2.2.2.1 [] rfl,
   C8_missing_key_is_parse_error.2.2.2.2.2.1 [] rfl⟩

end VelibPredictor
